import Mathlib

/-
Shallow embedding of photonmover/instruments/Oscilloscopes/RigolDS1000.py.

Each driver method is modelled as a pure function returning the list of SCPI
command strings written to the transport (gpib.write / the write half of a
query), together with its return value where the method returns one.
print-logging to stdout is elided except in read_waveform, where a claim
refers to the logged skip warning.  Python floats are modelled as exact
rationals (ℚ); the concrete values appearing in the claims are small decimal
literals for which double-precision arithmetic and exact rational arithmetic
agree.
-/

namespace RigolDS1000

/-- Channel identifiers accepted by every channel-scoped method:
the literal list [1, 2, 3, 4] from the source. -/
def validChannels : List ℕ := [1, 2, 3, 4]

/-- Fixed-point rendering of a rational, modelling the Python format
specifier %.df applied to a float: sign, integer part, a dot, and exactly d
fractional digits.  Rounding of the scaled value is round-half-up; Python
rounds the underlying double half-to-even, but no input in this development
lands on a tie. -/
def fmtFixed (d : ℕ) (q : ℚ) : String :=
  let sgn := if q < 0 then "-" else ""
  let scaled := (⌊|q| * (10 : ℚ) ^ d + 1 / 2⌋).toNat
  let frac := toString (scaled % 10 ^ d)
  sgn ++ toString (scaled / 10 ^ d) ++ "." ++
    String.mk (List.replicate (d - frac.length) (Char.ofNat 48)) ++ frac

/-- Clamp step of set_acq_averages: `if num_avg > 1024: num_avg = 1024`. -/
def clampAvg (n : ℕ) : ℕ := if n > 1024 then 1024 else n

/-- Value of `round(np.log2(n))` for a natural number n ≥ 1, modelling the
double-precision computation by exact real log2 rounded to the nearest
integer: round (log2 n) = k iff 2 ^ (2k - 1) ≤ n ^ 2 < 2 ^ (2k + 1), so it
is the greatest k ≤ n with 2 ^ (2k - 1) ≤ n ^ 2.  Ties
are impossible (2 ^ odd is never a perfect square), and for n ≤ 1024 the
double-precision log2 is far closer to the exact value than the distance to
any half-integer boundary, so the model is exact on the source's domain. -/
def roundLog2 (n : ℕ) : ℕ :=
  Nat.findGreatest (fun k => 2 ^ (2 * k - 1) ≤ n ^ 2) n

/-- Parity step of set_acq_averages:
`if num_avg % 2 != 0: num_avg = round(np.log2(num_avg))`. -/
def coerceAvg (n : ℕ) : ℕ := if n % 2 ≠ 0 then roundLog2 n else n

/-- set_acq_averages: clamp at 1024, apply the parity coercion, then write
`"ACQ:AVER %d" % num_avg`.  The write is unconditional in the source. -/
def set_acq_averages (num_avg : ℕ) : List String :=
  ["ACQ:AVER " ++ toString (coerceAvg (clampAvg num_avg))]

/-- set_acq_type: guard the mode against the literal list, else write
`:ACQ:TYPE %s`. -/
def set_acq_type (mode : String) : List String :=
  if mode ∉ ["NORM", "AVER", "PEAK", "HRES"] then []
  else [":ACQ:TYPE " ++ mode]

/-- set_bw: guard channel and bw, then write `:CHAN%d:BWL OFF` when bw = 0
and `:CHAN%d:BWL 20M` when bw = 1 (two independent ifs in the source). -/
def set_bw (channel : ℕ) (bw : ℕ) : List String :=
  if channel ∉ validChannels then []
  else if bw ∉ [0, 1] then []
  else
    (if bw = 0 then [":CHAN" ++ toString channel ++ ":BWL OFF"] else []) ++
    (if bw = 1 then [":CHAN" ++ toString channel ++ ":BWL 20M"] else [])

/-- set_coupling_type: guard channel and coupling, then write
`:CHAN%d:COUP %s`. -/
def set_coupling_type (channel : ℕ) (coupling : String) : List String :=
  if channel ∉ validChannels then []
  else if coupling ∉ ["AC", "DC", "GND"] then []
  else [":CHAN" ++ toString channel ++ ":COUP " ++ coupling]

/-- channel_display: guard channel and the on flag, then write
`:CHAN%d:DISP %d`. -/
def channel_display (channel : ℕ) (onFlag : ℕ) : List String :=
  if channel ∉ validChannels then []
  else if onFlag ∉ [0, 1] then []
  else [":CHAN" ++ toString channel ++ ":DISP " ++ toString onFlag]

/-- set_vertical_range: guard the channel, then write `:CHAN%d:RANG %.3f`
when rnge is not None and `:CHAN%d:OFFS %.3f` when offset is not None. -/
def set_vertical_range (channel : ℕ) (rnge offset : Option ℚ) : List String :=
  if channel ∉ validChannels then []
  else
    (match rnge with
     | some r => [":CHAN" ++ toString channel ++ ":RANG " ++ fmtFixed 3 r]
     | none => []) ++
    (match offset with
     | some o => [":CHAN" ++ toString channel ++ ":OFFS " ++ fmtFixed 3 o]
     | none => [])

/-- set_horizonal_scale (name misspelt in the source): writes
`:TIM:SCAL %.7f`. -/
def set_horizonal_scale (scale : ℚ) : List String :=
  [":TIM:SCAL " ++ fmtFixed 7 scale]

/-- set_horizontal_range: the source delegates to
`self.set_horizonal_scale(scale=rnge/12)`. -/
def set_horizontal_range (rnge : ℚ) : List String :=
  set_horizonal_scale (rnge / 12)

/-- Measurement items accepted by measure_item, the literal list from the
source. -/
def measItems : List String := ["VMAX", "VMIN", "VPP", "VAVG", "PER", "FREQ"]

/-- measure_item: guard channel, then item; on success write
`:MEAS:ITEM %s,CHAN%d`, sleep, and issue the query `:MEAS:ITEM? %s,CHAN%d`
(its write half is recorded), returning the parsed float of the reply, which
the transport model supplies as `reply`.  On either failed guard the method
returns Python None (here `none`) having written nothing. -/
def measure_item (channel : ℕ) (item : String) (reply : ℚ) :
    List String × Option ℚ :=
  if channel ∉ validChannels then ([], none)
  else if item ∉ measItems then ([], none)
  else ([":MEAS:ITEM " ++ item ++ ",CHAN" ++ toString channel,
         ":MEAS:ITEM? " ++ item ++ ",CHAN" ++ toString channel], some reply)

/-- Trigger modes accepted by set_trigger. -/
def trigModes : List String :=
  ["EDGE", "PULSE", "RUNT", "WIND", "SLOPE", "NEDG", "PATT", "DEL"]

/-- Trigger coupling options accepted by set_trigger. -/
def trigCoups : List String := ["AC", "DC", "LFR", "HFR"]

/-- Trigger sweep options accepted by set_trigger. -/
def trigSweeps : List String := ["AUTO", "NORM", "SING"]

/-- set_trigger: five independent ifs in the source; each valid argument
produces its write, an invalid one is skipped silently.  There is no early
return on a bad channel: the channel guard covers only the trigger-source
write. -/
def set_trigger (mode coupling trig_number : String) (channel : ℕ)
    (level : Option ℚ) : List String :=
  (if mode ∈ trigModes then [":TRIG:MODE " ++ mode] else []) ++
  (if coupling ∈ trigCoups then [":TRIG:COUP " ++ coupling] else []) ++
  (if trig_number ∈ trigSweeps then [":TRIG:SWE " ++ trig_number] else []) ++
  (if channel ∈ validChannels then
    [":TRIG:" ++ mode ++ ":SOUR CHAN" ++ toString channel] else []) ++
  (match level with
   | some l => [":TRIG:" ++ mode ++ ":LEV " ++ fmtFixed 4 l]
   | none => [])

/-- Spec-side reference for the amended C1: the writes of set_trigger with
the trigger-source write omitted, i.e. what set_trigger emits when its
channel argument is invalid. -/
def set_trigger_no_source (mode coupling trig_number : String)
    (level : Option ℚ) : List String :=
  (if mode ∈ trigModes then [":TRIG:MODE " ++ mode] else []) ++
  (if coupling ∈ trigCoups then [":TRIG:COUP " ++ coupling] else []) ++
  (if trig_number ∈ trigSweeps then [":TRIG:SWE " ++ trig_number] else []) ++
  (match level with
   | some l => [":TRIG:" ++ mode ++ ":LEV " ++ fmtFixed 4 l]
   | none => [])

/-! Waveform acquisition.  The raw reply to `WAV:DATA?` is a byte string;
bytes are modelled as characters with code points below 256. -/

/-- Hexadecimal digit character, as used in Python byte-string escapes. -/
def hexDig (n : ℕ) : Char :=
  if n < 10 then Char.ofNat (48 + n) else Char.ofNat (87 + n)

/-- Escape of one byte inside Python's repr of a bytes object, with quote
character q: backslash, the quote, tab, newline and carriage return get
two-character escapes, printable ASCII stands for itself, and everything
else becomes a four-character hex escape. -/
def pyEscChar (q : Char) (c : Char) : List Char :=
  if c = Char.ofNat 92 then [Char.ofNat 92, Char.ofNat 92]
  else if c = q then [Char.ofNat 92, q]
  else if c = Char.ofNat 9 then [Char.ofNat 92, Char.ofNat 116]
  else if c = Char.ofNat 10 then [Char.ofNat 92, Char.ofNat 110]
  else if c = Char.ofNat 13 then [Char.ofNat 92, Char.ofNat 114]
  else if 32 ≤ c.toNat ∧ c.toNat ≤ 126 then [c]
  else [Char.ofNat 92, Char.ofNat 120, hexDig (c.toNat / 16), hexDig (c.toNat % 16)]

/-- Python's str() of a bytes object: `b` followed by the quoted, escaped
contents.  Python prefers single quotes, switching to double quotes when the
contents contain a single quote but no double quote. -/
def bytesRepr (s : List Char) : List Char :=
  let q := if s.contains (Char.ofNat 39) ∧ ¬ s.contains (Char.ofNat 34) then
    Char.ofNat 34 else Char.ofNat 39
  Char.ofNat 98 :: q :: (s.map (pyEscChar q)).flatten ++ [q]

/-- Python slice s[2:-3]: the elements from index 2 up to (exclusive) length
minus 3; empty when the bounds cross. -/
def pySlice2m3 (l : List Char) : List Char := (l.take (l.length - 3)).drop 2

/-- Python str.split on a comma: splitting the empty string yields one empty
field, and consecutive commas yield empty fields. -/
def splitComma : List Char → List (List Char)
  | [] => [[]]
  | c :: rest =>
    if c = Char.ofNat 44 then [] :: splitComma rest
    else
      match splitComma rest with
      | [] => [[c]]
      | h :: t => (c :: h) :: t

/-- Decimal digit test. -/
def isDig (c : Char) : Bool := 48 ≤ c.toNat && c.toNat ≤ 57

/-- Numeric value of a digit string (most significant first). -/
def natOfDigits (l : List Char) : ℕ :=
  l.foldl (fun a c => 10 * a + (c.toNat - 48)) 0

/-- Decimal part of a Python float literal: digits, optionally a dot and
more digits, with at least one digit overall.  Returns none exactly where
Python float() raises ValueError. -/
def parseDecimal (l : List Char) : Option ℚ :=
  let ip := l.takeWhile isDig
  let rest := l.dropWhile isDig
  match rest with
  | [] => if ip.isEmpty then none else some (natOfDigits ip : ℚ)
  | d :: fr =>
    if d = Char.ofNat 46 ∧ fr.all isDig ∧ ¬ (ip.isEmpty ∧ fr.isEmpty) then
      some ((natOfDigits ip : ℚ) + (natOfDigits fr : ℚ) / 10 ^ fr.length)
    else none

/-- Exponent part of a Python float literal: optional sign then at least one
digit. -/
def parseExp (l : List Char) : Option ℤ :=
  match l with
  | [] => none
  | c :: rest =>
    if c = Char.ofNat 43 then
      if rest ≠ [] ∧ rest.all isDig then some (natOfDigits rest : ℤ) else none
    else if c = Char.ofNat 45 then
      if rest ≠ [] ∧ rest.all isDig then some (-(natOfDigits rest : ℤ)) else none
    else if l.all isDig then some (natOfDigits l : ℤ) else none

/-- Unsigned Python float literal: a decimal part optionally followed by an
e/E exponent. -/
def parseUnsigned (l : List Char) : Option ℚ :=
  let m := l.takeWhile (fun c => c ≠ Char.ofNat 101 ∧ c ≠ Char.ofNat 69)
  match l.dropWhile (fun c => c ≠ Char.ofNat 101 ∧ c ≠ Char.ofNat 69) with
  | [] => parseDecimal m
  | _ :: e =>
    (parseDecimal m).bind fun mv => (parseExp e).map fun ev => mv * (10 : ℚ) ^ ev

/-- Python float() applied to a string: optional sign then an unsigned
float literal.  Whitespace trimming and the inf/nan forms are not modelled;
the device produces none of them. -/
def parseFloat (l : List Char) : Option ℚ :=
  match l with
  | [] => none
  | c :: rest =>
    if c = Char.ofNat 43 then parseUnsigned rest
    else if c = Char.ofNat 45 then (parseUnsigned rest).map (fun q => -q)
    else parseUnsigned l

/-- Per-channel data parse of read_waveform:
`raw_data = data[11:]`, `wav_data_str = (str(raw_data)[2:-3]).split(',')`,
`wav_data = [float(i) for i in wav_data_str]`; none models the ValueError
raised when a field fails to parse as a float. -/
def parseWavData (data : List Char) : Option (List ℚ) :=
  (splitComma (pySlice2m3 (bytesRepr (data.drop 11)))).mapM parseFloat

/-- Python int() on a float: truncation toward zero. -/
def pyInt (q : ℚ) : ℤ := if 0 ≤ q then ⌊q⌋ else -⌊-q⌋

/-- Time axis of read_waveform:
`list(np.arange(0, int(preamble[2])) * preamble[4] + preamble[5])`. -/
def waveTime (preamble : List ℚ) : List ℚ :=
  (List.range (pyInt (preamble.getD 2 0)).toNat).map
    fun i : ℕ => (i : ℚ) * preamble.getD 4 0 + preamble.getD 5 0

/-- Transport model for read_waveform: the raw bytes answering the k-th
`WAV:DATA?` query and the parsed values answering the k-th `WAV:PRE?` query,
for arbitrary device behaviour. -/
structure Transport where
  raw : ℕ → List Char
  pre : ℕ → List ℚ

/-- Warning printed by read_waveform for a channel outside validChannels. -/
def skipMsg : String := "Specified channel not correct. Skipping it"

/-- Per-channel loop of read_waveform, with k counting the queries issued so
far.  Result: (transport writes, printed warnings, Option of (preambles,
(time, voltage) pairs)); none models an uncaught exception (a field that
float() rejects, or a preamble too short for indices 2, 4, 5), which aborts
the remaining channels.  An invalid channel prints skipMsg and continues.
The file_name=None path is modelled; CSV persistence is out of scope. -/
def readLoop (tr : Transport) :
    List ℕ → ℕ →
    List String × List String × Option (List (List ℚ) × List (List ℚ × List ℚ))
  | [], _ => ([], [], some ([], []))
  | c :: cs, k =>
    if c ∈ validChannels then
      let w0 := [":WAV:SOUR CHAN" ++ toString c, "WAV:DATA?"]
      match parseWavData (tr.raw k) with
      | none => (w0, [], none)
      | some v =>
        let pre := tr.pre k
        if 6 ≤ pre.length then
          let r := readLoop tr cs (k + 1)
          (w0 ++ ["WAV:PRE?"] ++ r.1, r.2.1,
           r.2.2.map fun pw => (pre :: pw.1, (waveTime pre, v) :: pw.2))
        else (w0 ++ ["WAV:PRE?"], [], none)
    else
      let r := readLoop tr cs k
      (r.1, skipMsg :: r.2.1, r.2.2)

/-- read_waveform: writes the two mode-setup commands, then runs the
per-channel loop. -/
def read_waveform (tr : Transport) (channels : List ℕ) :
    List String × List String × Option (List (List ℚ) × List (List ℚ × List ℚ)) :=
  let r := readLoop tr channels 0
  (":WAV:MODE NORM" :: ":WAV:FORM ASCII" :: r.1, r.2.1, r.2.2)

/-- Number of valid channels in a request list. -/
def validCount (cs : List ℕ) : ℕ :=
  (cs.filter fun c => decide (c ∈ validChannels)).length

/-- Concrete transport for the synthetic waveform read of the spec: raw
reply "#9000000011" ++ "1.0,2.0,3.0" and preamble with sample count 3,
sample interval 0.001 and time origin 0.0. -/
def c4tr : Transport :=
  ⟨fun _ => ("#9000000011" ++ "1.0,2.0,3.0").toList,
   fun _ => [0, 0, 3, 0, 1/1000, 0]⟩

/-- Concrete transport with a one-sample reply, used to witness the
skip-and-continue behaviour on the request list [5, 1]. -/
def c7tr : Transport :=
  ⟨fun _ => ("#9000000011" ++ "1.0").toList, fun _ => [0, 0, 1, 0, 1, 0]⟩

/-- Concrete transport whose preamble reports 2 samples while the raw reply
carries 3, exhibiting a (time, voltage) pair of unequal lengths. -/
def c8tr : Transport :=
  ⟨fun _ => ("#9000000011" ++ "1.0,2.0,3.0").toList,
   fun _ => [0, 0, 2, 0, 1/1000, 0]⟩

/-! Claims. -/

/-- Claim C1, counterexample: set_trigger is channel-scoped (it takes a
channel and formats it into its trigger-source command), yet with the
invalid channel 5 and a valid mode, coupling and sweep it still performs
three transport writes, refuting the claim that every channel-scoped setter
performs no transport write on an invalid channel. -/
theorem set_trigger_writes_on_invalid_channel :
    (5 : ℕ) ∉ validChannels ∧
    set_trigger "EDGE" "AC" "AUTO" 5 none =
      [":TRIG:MODE EDGE", ":TRIG:COUP AC", ":TRIG:SWE AUTO"] := by
  exact ⟨by decide, by with_unfolding_all rfl⟩

/-- Claim C1, amended: for every channel outside {1,2,3,4}, set_bw,
set_coupling_type, channel_display, set_vertical_range and measure_item
perform no transport write, while set_trigger omits only its trigger-source
write and still performs its mode, coupling, sweep and level writes. -/
theorem channel_setters_silent_on_invalid_channel
    (channel : ℕ) (h : channel ∉ validChannels) (bw onFlag : ℕ)
    (coupling item mode tcoup sweep : String)
    (rnge offset level : Option ℚ) (reply : ℚ) :
    set_bw channel bw = [] ∧
    set_coupling_type channel coupling = [] ∧
    channel_display channel onFlag = [] ∧
    set_vertical_range channel rnge offset = [] ∧
    measure_item channel item reply = ([], none) ∧
    set_trigger mode tcoup sweep channel level =
      set_trigger_no_source mode tcoup sweep level := by
  refine ⟨?_, ?_, ?_, ?_, ?_, ?_⟩ <;>
    simp [set_bw, set_coupling_type, channel_display, set_vertical_range,
      measure_item, set_trigger, set_trigger_no_source, h]

/-- Witness for the amended C1 at channel 5. -/
theorem channel_setters_silent_on_invalid_channel_witness :
    (5 : ℕ) ∉ validChannels ∧
    (set_bw 5 1 = [] ∧
     set_coupling_type 5 "AC" = [] ∧
     channel_display 5 1 = [] ∧
     set_vertical_range 5 (some 1) none = [] ∧
     measure_item 5 "VPP" 0 = ([], none) ∧
     set_trigger "EDGE" "AC" "AUTO" 5 (some 1) =
       set_trigger_no_source "EDGE" "AC" "AUTO" (some 1)) :=
  ⟨by decide,
   channel_setters_silent_on_invalid_channel 5 (by decide) 1 1 "AC" "VPP"
     "EDGE" "AC" "AUTO" (some 1) none (some 1) 0⟩

/-- Claim C2, failing input: with num_avg = 5, which is not an accepted
step value, the source computes round(np.log2(5)) = 2 and sends
"ACQ:AVER 2", not the nearest accepted value 4: the coercion message
promises the closest power of two but the code assigns the rounded
exponent itself. -/
theorem set_acq_averages_five_sends_two :
    set_acq_averages 5 = ["ACQ:AVER 2"] ∧
    set_acq_averages 5 ≠ ["ACQ:AVER 4"] := by
  have h : set_acq_averages 5 = ["ACQ:AVER 2"] := by with_unfolding_all rfl
  exact ⟨h, by rw [h]; decide⟩

/-- Claim C3: every averaging count strictly greater than 1024 is clamped
to exactly 1024, and 1024 is even, so the command sent is "ACQ:AVER 1024". -/
theorem set_acq_averages_clamps_to_1024 (n : ℕ) (h : 1024 < n) :
    set_acq_averages n = ["ACQ:AVER 1024"] := by
  simp only [set_acq_averages, clampAvg, coerceAvg, if_pos h]
  rfl

/-- Witness for C3 at n = 2000. -/
theorem set_acq_averages_clamps_to_1024_witness :
    1024 < 2000 ∧ set_acq_averages 2000 = ["ACQ:AVER 1024"] :=
  ⟨by decide, set_acq_averages_clamps_to_1024 2000 (by decide)⟩

/-- Claim C5: measure_item with an item outside the accepted list returns
None and sends no command, for every channel (valid or not). -/
theorem measure_item_invalid_item_noop
    (item : String) (h : item ∉ measItems) (channel : ℕ) (reply : ℚ) :
    measure_item channel item reply = ([], none) := by
  by_cases hc : channel ∉ validChannels <;> simp [measure_item, h, hc]

/-- Witness for C5 at item "VRMS" on channel 1. -/
theorem measure_item_invalid_item_noop_witness :
    "VRMS" ∉ measItems ∧ measure_item 1 "VRMS" 0 = ([], none) :=
  ⟨by decide, measure_item_invalid_item_noop "VRMS" (by decide) 1 0⟩

/-- Claim C6: set_horizontal_range r performs exactly the transport writes
of set_horizonal_scale (r / 12); the source delegates directly. -/
theorem set_horizontal_range_eq_scale_div_twelve (r : ℚ) :
    set_horizontal_range r = set_horizonal_scale (r / 12) := rfl

/-- Claim C10: set_acq_averages sends exactly one ACQ:AVER command for
every input, with no silent no-op branch, and the value sent never exceeds
1024: the clamp bounds the even path, and on the odd path the rounded
log2 exponent is at most its argument. -/
theorem set_acq_averages_single_bounded_write (n : ℕ) :
    ∃ m : ℕ, m ≤ 1024 ∧ set_acq_averages n = ["ACQ:AVER " ++ toString m] := by
  refine ⟨coerceAvg (clampAvg n), ?_, rfl⟩
  have h1 : clampAvg n ≤ 1024 := by unfold clampAvg; split <;> omega
  unfold coerceAvg roundLog2
  split
  · exact le_trans (Nat.findGreatest_le _) h1
  · exact h1

/-- Claim C4: on the synthetic reply "#9000000011" ++ "1.0,2.0,3.0" with
preamble [0, 0, 3, 0, 0.001, 0.0], read_waveform on channel 1 returns the
time axis [0.0, 0.001, 0.002] (index times sample interval plus origin for
3 points) paired with the voltages [1.0, 2.0, 3.0] parsed after stripping
the 11-byte header. -/
theorem read_waveform_concrete_example :
    (read_waveform c4tr [1]).2.2 =
      some ([[0, 0, 3, 0, 1/1000, 0]],
            [([0, 1/1000, 2/1000], [1, 2, 3])]) := by with_unfolding_all rfl

/-- Dropping the invalid channels from the request list changes neither the
transport writes nor the returned data of readLoop: an invalid channel is
skipped and never aborts the remaining channels. -/
theorem readLoop_filter (tr : Transport) :
    ∀ (cs : List ℕ) (k : ℕ),
      readLoop tr (cs.filter fun c => decide (c ∈ validChannels)) k =
        ((readLoop tr cs k).1, [], (readLoop tr cs k).2.2)
  | [], _ => rfl
  | c :: cs, k => by
    by_cases hc : c ∈ validChannels
    · rw [show (c :: cs).filter (fun c => decide (c ∈ validChannels)) =
          c :: cs.filter (fun c => decide (c ∈ validChannels)) from by simp [hc]]
      simp only [readLoop, if_pos hc]
      cases hp : parseWavData (tr.raw k) with
      | none => simp [hp]
      | some v =>
        simp only [hp]
        by_cases h6 : 6 ≤ (tr.pre k).length
        · simp [if_pos h6, readLoop_filter tr cs (k + 1)]
        · simp [if_neg h6]
    · rw [show (c :: cs).filter (fun c => decide (c ∈ validChannels)) =
          cs.filter (fun c => decide (c ∈ validChannels)) from by simp [hc]]
      simp [readLoop_filter tr cs k, readLoop, hc]

/-- When readLoop returns (rather than raising), each output list has one
entry per valid requested channel and one skip warning was printed per
invalid requested channel. -/
theorem readLoop_success_counts (tr : Transport) :
    ∀ (cs : List ℕ) (k : ℕ) (pres : List (List ℚ)) (wfs : List (List ℚ × List ℚ)),
      (readLoop tr cs k).2.2 = some (pres, wfs) →
      pres.length = validCount cs ∧ wfs.length = validCount cs ∧
      (readLoop tr cs k).2.1 = List.replicate (cs.length - validCount cs) skipMsg
  | [], k, pres, wfs => by
    intro h
    simp only [readLoop, Option.some.injEq] at h
    obtain ⟨h1, h2⟩ := Prod.mk.injEq .. ▸ h
    simp [validCount, readLoop, ← h1, ← h2]
  | c :: cs, k, pres, wfs => by
    intro h
    by_cases hc : c ∈ validChannels
    · have hv : validCount (c :: cs) = validCount cs + 1 := by simp [validCount, hc]
      simp only [readLoop, if_pos hc] at h ⊢
      cases hp : parseWavData (tr.raw k) with
      | none => simp [hp] at h
      | some v =>
        simp only [hp] at h ⊢
        by_cases h6 : 6 ≤ (tr.pre k).length
        · rw [if_pos h6] at h ⊢
          simp only [Option.map_eq_some'] at h
          obtain ⟨⟨pres1, wfs1⟩, hr, heq⟩ := h
          obtain ⟨hp1, hp2⟩ := Prod.mk.injEq .. ▸ heq.symm
          obtain ⟨ih1, ih2, ih3⟩ := readLoop_success_counts tr cs (k + 1) pres1 wfs1 hr
          subst hp1; subst hp2
          have hlen : (c :: cs).length - validCount (c :: cs) =
              cs.length - validCount cs := by
            simp only [hv, List.length_cons]; omega
          exact ⟨by simp [hv, ih1], by simp [hv, ih2], by rw [hlen]; exact ih3⟩
        · rw [if_neg h6] at h; simp at h
    · have hv : validCount (c :: cs) = validCount cs := by simp [validCount, hc]
      have hle : validCount cs ≤ cs.length := List.length_filter_le _ _
      simp only [readLoop, if_neg hc] at h ⊢
      obtain ⟨ih1, ih2, ih3⟩ := readLoop_success_counts tr cs k pres wfs h
      have hlen : (c :: cs).length - validCount (c :: cs) =
          (cs.length - validCount cs) + 1 := by
        simp only [hv, List.length_cons]; omega
      exact ⟨hv ▸ ih1, hv ▸ ih2, by rw [hlen, List.replicate_succ, ih3]⟩

/-- Claim C7: read_waveform on the valid channels alone produces exactly
the writes and data of the full request (an invalid channel is skipped,
never aborting the rest), and when the read returns, each output list has
exactly one entry per valid requested channel, in request order, with one
logged warning per skipped channel. -/
theorem read_waveform_skips_invalid_channels (tr : Transport) (channels : List ℕ) :
    read_waveform tr (channels.filter fun c => decide (c ∈ validChannels)) =
      ((read_waveform tr channels).1, [], (read_waveform tr channels).2.2) ∧
    ∀ pres wfs, (read_waveform tr channels).2.2 = some (pres, wfs) →
      pres.length = validCount channels ∧ wfs.length = validCount channels ∧
      (read_waveform tr channels).2.1 =
        List.replicate (channels.length - validCount channels) skipMsg := by
  constructor
  · simp [read_waveform, readLoop_filter tr channels 0]
  · intro pres wfs h
    exact readLoop_success_counts tr channels 0 pres wfs h

/-- Witness for C7 on the request list [5, 1]: channel 5 is skipped with
one warning and channel 1 is still read. -/
theorem read_waveform_skips_invalid_channels_witness :
    (read_waveform c7tr [5, 1]).2.2 =
      some ([[0, 0, 1, 0, 1, 0]], [([0], [1])]) ∧
    ([[0, 0, 1, 0, 1, 0]] : List (List ℚ)).length = validCount [5, 1] ∧
    ([([0], [1])] : List (List ℚ × List ℚ)).length = validCount [5, 1] ∧
    (read_waveform c7tr [5, 1]).2.1 =
      List.replicate ([5, 1].length - validCount [5, 1]) skipMsg := by
  have h : (read_waveform c7tr [5, 1]).2.2 =
      some ([[0, 0, 1, 0, 1, 0]], [([0], [1])]) := by with_unfolding_all rfl
  obtain ⟨h1, h2, h3⟩ :=
    (read_waveform_skips_invalid_channels c7tr [5, 1]).2 _ _ h
  exact ⟨h, h1, h2, h3⟩

/-- Claim C8, counterexample: a transport whose preamble reports 2 samples
while the raw reply parses to 3 voltages makes read_waveform return a
channel whose time list (2 entries) and voltage list (3 entries) differ in
length, refuting equal lengths for every reply the device may return. -/
theorem read_waveform_length_mismatch_cex :
    (read_waveform c8tr [1]).2.2 =
      some ([[0, 0, 2, 0, 1/1000, 0]], [([0, 1/1000], [1, 2, 3])]) ∧
    ¬ ∀ pres wfs, (read_waveform c8tr [1]).2.2 = some (pres, wfs) →
        ∀ w ∈ wfs, w.1.length = w.2.length := by
  have h : (read_waveform c8tr [1]).2.2 =
      some ([[0, 0, 2, 0, 1/1000, 0]], [([0, 1/1000], [1, 2, 3])]) := by
    with_unfolding_all rfl
  refine ⟨h, fun hall => ?_⟩
  have h2 := hall _ _ h ([0, 1/1000], [1, 2, 3]) (by simp)
  simp at h2

/-- Lengths of the per-channel outputs of readLoop: the returned lists are
parallel, and each channel's time list has exactly as many points as the
truncated sample-count field of that channel's preamble. -/
theorem readLoop_time_lengths (tr : Transport) :
    ∀ (cs : List ℕ) (k : ℕ) (pres : List (List ℚ)) (wfs : List (List ℚ × List ℚ)),
      (readLoop tr cs k).2.2 = some (pres, wfs) →
      pres.length = wfs.length ∧
      ∀ i, i < wfs.length →
        ((wfs.getD i ([], [])).1).length = (pyInt ((pres.getD i []).getD 2 0)).toNat
  | [], k, pres, wfs => by
    intro h
    simp only [readLoop, Option.some.injEq] at h
    obtain ⟨h1, h2⟩ := Prod.mk.injEq .. ▸ h
    refine ⟨by simp [← h1, ← h2], fun i hi => ?_⟩
    rw [← h2] at hi
    simp at hi
  | c :: cs, k, pres, wfs => by
    intro h
    by_cases hc : c ∈ validChannels
    · simp only [readLoop, if_pos hc] at h
      cases hp : parseWavData (tr.raw k) with
      | none => simp [hp] at h
      | some v =>
        simp only [hp] at h
        by_cases h6 : 6 ≤ (tr.pre k).length
        · rw [if_pos h6] at h
          simp only [Option.map_eq_some'] at h
          obtain ⟨⟨pres1, wfs1⟩, hr, heq⟩ := h
          obtain ⟨hp1, hp2⟩ := Prod.mk.injEq .. ▸ heq.symm
          obtain ⟨ih1, ih2⟩ := readLoop_time_lengths tr cs (k + 1) pres1 wfs1 hr
          subst hp1; subst hp2
          refine ⟨by simp [ih1], fun i hi => ?_⟩
          cases i with
          | zero =>
            simp only [List.getD_cons_zero, waveTime, List.length_map,
              List.length_range]
          | succ j =>
            simp only [List.getD_cons_succ]
            exact ih2 j (by simpa using hi)
        · rw [if_neg h6] at h; simp at h
    · simp only [readLoop, if_neg hc] at h
      exact readLoop_time_lengths tr cs k pres wfs h

/-- Claim C8, amended: for every channel returned by read_waveform, the
time list has exactly as many entries as the preamble's sample-count field
(truncated to an integer and clamped at zero), so the time and voltage
lists of a channel are equal in length exactly when that count matches the
number of parsed samples. -/
theorem read_waveform_time_length_eq_preamble_count (tr : Transport)
    (channels : List ℕ) (pres : List (List ℚ)) (wfs : List (List ℚ × List ℚ))
    (h : (read_waveform tr channels).2.2 = some (pres, wfs)) :
    pres.length = wfs.length ∧
    ∀ i, i < wfs.length →
      ((wfs.getD i ([], [])).1).length =
        (pyInt ((pres.getD i []).getD 2 0)).toNat :=
  readLoop_time_lengths tr channels 0 pres wfs h

/-- Witness for the amended C8 on the mismatching transport: the single
returned channel has a time list of length 2, the preamble's reported
count. -/
theorem read_waveform_time_length_eq_preamble_count_witness :
    (read_waveform c8tr [1]).2.2 =
      some ([[0, 0, 2, 0, 1/1000, 0]], [([0, 1/1000], [1, 2, 3])]) ∧
    (([[0, 0, 2, 0, 1/1000, 0]] : List (List ℚ)).length =
       ([([0, 1/1000], [1, 2, 3])] : List (List ℚ × List ℚ)).length ∧
     ∀ i, i < ([([0, 1/1000], [1, 2, 3])] : List (List ℚ × List ℚ)).length →
       ((([([0, 1/1000], [1, 2, 3])] : List (List ℚ × List ℚ)).getD i ([], [])).1).length =
         (pyInt ((([[0, 0, 2, 0, 1/1000, 0]] : List (List ℚ)).getD i []).getD 2 0)).toNat) := by
  have h : (read_waveform c8tr [1]).2.2 =
      some ([[0, 0, 2, 0, 1/1000, 0]], [([0, 1/1000], [1, 2, 3])]) := by
    with_unfolding_all rfl
  exact ⟨h, read_waveform_time_length_eq_preamble_count c8tr [1] _ _ h⟩

/-- Claim C9: with an empty channel list, read_waveform still writes the
two mode-setup commands, performs no per-channel query, prints nothing and
returns two empty lists. -/
theorem read_waveform_empty_channel_list (tr : Transport) :
    read_waveform tr [] =
      ([":WAV:MODE NORM", ":WAV:FORM ASCII"], [], some ([], [])) := rfl

end RigolDS1000
